import Mathlib

/-
Shallow embedding of `modal_chronos_api.py` (iava.ai Chronos forecasting
service) and proofs about its model cache, forecasting engine, request
validation, proxy routing and public endpoints.

Modelling conventions:
* Python floats are modelled as rationals (`ℚ`).
* The pretrained pipeline object is opaque: an abstract handle (`Pipeline`).
* The effectful collaborators (`ChronosPipeline.from_pretrained`,
  `torch.tensor`, `pipeline.predict`) are passed in as function parameters
  returning `Except String _`: a Python exception with message `e` is the
  `Except.error e` branch.
* The process-wide mutable state (`_MODEL_CACHE`, `os.environ`) is passed
  as an explicit `CacheState`; a `trace` field logs the observable actions
  (environment writes and model loads) in program order.
-/

namespace IavaChronos

/-- An opaque handle to a loaded `ChronosPipeline` (identity matters, the
internal structure does not). -/
abbrev Pipeline := Nat

/-- Observable side effects of the loader: writing the
`CUDA_VISIBLE_DEVICES` environment toggle, and performing one
`ChronosPipeline.from_pretrained` load for a model name. -/
inductive Ev where
  | setEnv (v : String)
  | load (name : String)
  deriving DecidableEq, Repr

/-- Process-wide mutable state touched by `get_chronos_pipeline`:
the `_MODEL_CACHE` dict, the `CUDA_VISIBLE_DEVICES` environment variable,
and an event trace of the observable actions performed so far. -/
structure CacheState where
  cache : List (String × Pipeline)
  cudaVisibleDevices : Option String
  trace : List Ev
  deriving DecidableEq, Repr

/-- The f-string `f"amazon/chronos-t5-{model_size}"`. -/
def chronosName (model_size : String) : String :=
  "amazon/chronos-t5-" ++ model_size

/-- Python dict assignment `d[k] = v`: the new binding replaces any old
binding of `k`. -/
def dictInsert (k : String) (v : Pipeline) (d : List (String × Pipeline)) :
    List (String × Pipeline) :=
  (k, v) :: d.filter (fun kv => kv.1 ≠ k)

/-- `get_chronos_pipeline(model_size)` (lines 38-64): sets
`CUDA_VISIBLE_DEVICES = ""`, then checks `_MODEL_CACHE`; on a miss it runs
`ChronosPipeline.from_pretrained` (the `load` parameter; an exception there
propagates, i.e. yields `Except.error`) and stores the pipeline in the
cache; finally returns the cached pipeline. -/
def get_chronos_pipeline (model_size : String)
    (load : String → Except String Pipeline) (st : CacheState) :
    Except String Pipeline × CacheState :=
  let st1 : CacheState :=
    { st with cudaVisibleDevices := some "", trace := st.trace ++ [Ev.setEnv ""] }
  let model_name := chronosName model_size
  match st1.cache.lookup model_name with
  | some p => (Except.ok p, st1)
  | none =>
    match load model_name with
    | Except.error e =>
        (Except.error e, { st1 with trace := st1.trace ++ [Ev.load model_name] })
    | Except.ok p =>
        (Except.ok p,
          { st1 with
            cache := dictInsert model_name p st1.cache,
            trace := st1.trace ++ [Ev.load model_name] })

/-- Number of model-load events in a trace. -/
def countLoads (t : List Ev) : Nat :=
  (t.filter (fun e => match e with | Ev.load _ => true | _ => false)).length

/-- Number of environment-toggle writes in a trace. -/
def countSetEnv (t : List Ev) : Nat :=
  (t.filter (fun e => match e with | Ev.setEnv _ => true | _ => false)).length

/-- `np.quantile(_, p)` along one column with the default linear
interpolation method: sort the samples, take the fractional index
`h = p * (n - 1)`, and interpolate linearly between the neighbouring
order statistics. -/
def quantileLinear (xs : List ℚ) (p : ℚ) : ℚ :=
  let s := xs.insertionSort (· ≤ ·)
  let n := s.length
  let h : ℚ := p * ((n : ℚ) - 1)
  let i : ℕ := (⌊h⌋).toNat
  let lo := s.getD i 0
  let hi := s.getD (min (i + 1) (n - 1)) 0
  lo + (h - (i : ℚ)) * (hi - lo)

/-- Column `i` of the sample matrix `forecast[0]` (rows are sample
trajectories, columns are future time steps). -/
def column (samples : List (List ℚ)) (i : ℕ) : List ℚ :=
  samples.map (fun row => row.getD i 0)

/-- Number of columns of the (rectangular) sample matrix. -/
def numCols (samples : List (List ℚ)) : ℕ :=
  (samples.headD []).length

/-- `np.quantile(forecast[0].numpy(), p, axis=0)`: the `p`-quantile of each
column across the sample axis. -/
def quantileCols (samples : List (List ℚ)) (p : ℚ) : List ℚ :=
  (List.range (numCols samples)).map (fun i => quantileLinear (column samples i) p)

/-- The dict returned by `forecast_chronos`: either the success dict
(lines 115-124, `"status": "success"`) or the failure dict
(lines 129-132, `"status": "failed"`). -/
inductive ForecastResult where
  | success (predictions confidence_low confidence_high : List ℚ)
      (horizon : Int) (model : String) (num_samples : Int) (cached : Bool)
  | failed (error : String)
  deriving DecidableEq, Repr

/-- The `"status"` field of a `forecast_chronos` result dict. -/
def ForecastResult.status : ForecastResult → String
  | .success _ _ _ _ _ _ _ => "success"
  | .failed _ => "failed"

/-- `forecast_chronos(time_series, horizon, model_size)` (lines 75-132).
The body is one `try` block: obtain the cached pipeline, build the context
tensor (`tensorize`), run `pipeline.predict` (`predict`, returning the
sample matrix `forecast[0]`), reduce with `np.quantile` at 0.1 / 0.5 / 0.9,
and return the success dict; any raised exception is caught and turned into
the failure dict carrying `str(e)`. -/
def forecast_chronos (load : String → Except String Pipeline)
    (tensorize : List ℚ → Except String (List ℚ))
    (predict : Pipeline → List ℚ → Int → Except String (List (List ℚ)))
    (time_series : List ℚ) (horizon : Int) (model_size : String)
    (st : CacheState) : ForecastResult × CacheState :=
  match get_chronos_pipeline model_size load st with
  | (Except.error e, st1) => (ForecastResult.failed e, st1)
  | (Except.ok pipeline, st1) =>
    match tensorize time_series with
    | Except.error e => (ForecastResult.failed e, st1)
    | Except.ok context_tensor =>
      match predict pipeline context_tensor horizon with
      | Except.error e => (ForecastResult.failed e, st1)
      | Except.ok samples =>
        (ForecastResult.success
          (quantileCols samples (1/2))
          (quantileCols samples (1/10))
          (quantileCols samples (9/10))
          horizon
          ("amazon/chronos-t5-" ++ model_size ++ " (REAL)")
          20
          true, st1)

/-- `forecast_timesfm(time_series, horizon)` (lines 143-161): call
`forecast_chronos.local(time_series, horizon, "base")`; if the result has
`status == "success"`, overwrite its `model` field with
`"TimesFM (via Chronos proxy)"`; return the result. -/
def forecast_timesfm (load : String → Except String Pipeline)
    (tensorize : List ℚ → Except String (List ℚ))
    (predict : Pipeline → List ℚ → Int → Except String (List (List ℚ)))
    (time_series : List ℚ) (horizon : Int)
    (st : CacheState) : ForecastResult × CacheState :=
  match forecast_chronos load tensorize predict time_series horizon "base" st with
  | (ForecastResult.success p cl ch hz _ n c, st1) =>
      (ForecastResult.success p cl ch hz "TimesFM (via Chronos proxy)" n c, st1)
  | (ForecastResult.failed e, st1) => (ForecastResult.failed e, st1)

/-- A Python value as it may occur in the untyped JSON request payload. -/
inductive PyVal where
  | pyNone
  | pyBool (b : Bool)
  | pyInt (n : Int)
  | pyFloat (q : ℚ)
  | pyStr (s : String)
  | pyList (xs : List PyVal)

/-- Whether `isinstance(v, list)` holds. -/
def PyVal.isPyList : PyVal → Bool
  | .pyList _ => true
  | _ => false

/-- The inbound payload dict as read by the endpoints: the three keys they
access via `data.get`, each `none` when the key is absent.  (`horizon` and
`model`, when present, are assumed well-typed — the claims only exercise
integer horizons and string model names.) -/
structure Payload where
  time_series : Option PyVal
  horizon : Option Int
  model : Option String

/-- Outcome of `api_forecast`: either an early return of the error dict
`{"error": error, "status": status}`, or dispatch to
`forecast_chronos.remote(ts, horizon, model)` (the only path that touches
the cache or the engine). -/
inductive ApiOutcome where
  | reject (error : String) (status : String)
  | invoke (ts : List PyVal) (horizon : Int) (model : String)

/-- `api_forecast(data)` (lines 193-241): read the three keys with their
defaults (`[]`, `24`, `"base"`), apply the validation rules in source
order, and on acceptance dispatch to `forecast_chronos.remote`. -/
def api_forecast (data : Payload) : ApiOutcome :=
  let ts := data.time_series.getD (PyVal.pyList [])
  let horizon := data.horizon.getD 24
  let model := data.model.getD "base"
  match ts with
  | PyVal.pyList xs =>
    if xs.length < 10 then
      ApiOutcome.reject "Need at least 10 historical data points" "failed"
    else if horizon < 1 ∨ horizon > 100 then
      ApiOutcome.reject "Horizon must be between 1 and 100" "failed"
    else if model ∉ (["tiny", "small", "base", "large"] : List String) then
      ApiOutcome.reject "Model must be tiny, small, base, or large" "failed"
    else
      ApiOutcome.invoke xs horizon model
  | _ => ApiOutcome.reject "time_series must be a list" "failed"

/-- Outcome of `api_timesfm`: either an early error dict or dispatch to
`forecast_timesfm.remote(ts, horizon)` (the substitution path; no model
field is read). -/
inductive TimesfmOutcome where
  | reject (error : String) (status : String)
  | invoke (ts : List PyVal) (horizon : Int)

/-- `api_timesfm(data)` (lines 252-294): same shape without a `model`
field, horizon bounded by 128 instead of 100, dispatching to
`forecast_timesfm.remote`. -/
def api_timesfm (data : Payload) : TimesfmOutcome :=
  let ts := data.time_series.getD (PyVal.pyList [])
  let horizon := data.horizon.getD 24
  match ts with
  | PyVal.pyList xs =>
    if xs.length < 10 then
      TimesfmOutcome.reject "Need at least 10 historical data points" "failed"
    else if horizon < 1 ∨ horizon > 128 then
      TimesfmOutcome.reject "Horizon must be between 1 and 128" "failed"
    else
      TimesfmOutcome.invoke xs horizon
  | _ => TimesfmOutcome.reject "time_series must be a list" "failed"

/-!
Interleaving model of `get_chronos_pipeline` under `@modal.concurrent`:
each thread executes the function in two atomic phases, split at its
shared-state interaction points — phase 0 is lines 44-50 (set the
environment toggle, look the key up in `_MODEL_CACHE`), phase 1 is lines
56-64 (run `from_pretrained`, store into the cache, re-read the cache for
the return).  A scheduler string picks which of two threads steps next.
-/

/-- One thread running `get_chronos_pipeline`: `pc = 0` before the cache
check, `pc = 1` after a miss (about to load), `pc = 2` returned. -/
structure Thread where
  pc : Nat
  result : Option Pipeline
  deriving DecidableEq, Repr

/-- One atomic phase of `get_chronos_pipeline` for one thread. -/
def threadStep (model_name : String) (load : String → Pipeline)
    (st : CacheState) (th : Thread) : CacheState × Thread :=
  match th.pc with
  | 0 =>
    let st1 : CacheState :=
      { st with cudaVisibleDevices := some "", trace := st.trace ++ [Ev.setEnv ""] }
    match st1.cache.lookup model_name with
    | some p => (st1, { pc := 2, result := some p })
    | none => (st1, { pc := 1, result := none })
  | 1 =>
    let p := load model_name
    let st2 : CacheState :=
      { st with
        cache := dictInsert model_name p st.cache,
        trace := st.trace ++ [Ev.load model_name] }
    (st2, { pc := 2, result := st2.cache.lookup model_name })
  | _ => (st, th)

/-- Two threads sharing the cache state. -/
structure Conc2 where
  st : CacheState
  t0 : Thread
  t1 : Thread
  deriving DecidableEq, Repr

/-- Let the scheduled thread (`false` = thread 0, `true` = thread 1) take
one atomic phase. -/
def schedStep (model_name : String) (load : String → Pipeline)
    (c : Conc2) (who : Bool) : Conc2 :=
  if who then
    let (st1, th1) := threadStep model_name load c.st c.t1
    { c with st := st1, t1 := th1 }
  else
    let (st0, th0) := threadStep model_name load c.st c.t0
    { c with st := st0, t0 := th0 }

/-- Run a schedule to completion. -/
def runSched (model_name : String) (load : String → Pipeline)
    (sched : List Bool) (c : Conc2) : Conc2 :=
  sched.foldl (schedStep model_name load) c

/-!  Helper lemmas about the quantile reduction. -/

lemma sorted_getD_mono {s : List ℚ} (hs : s.Sorted (· ≤ ·)) {i j : ℕ}
    (hij : i ≤ j) (hj : j < s.length) : s.getD i 0 ≤ s.getD j 0 := by
  have hi : i < s.length := lt_of_le_of_lt hij hj
  rw [List.getD_eq_getElem _ _ hi, List.getD_eq_getElem _ _ hj]
  exact hs.rel_get_of_le (by simpa using hij)

/-- The linear-interpolation quantile is monotone in the probability level:
the heart of the `confidence_low ≤ predictions ≤ confidence_high`
invariant. -/
lemma quantileLinear_mono {xs : List ℚ} (hne : xs ≠ []) {p q : ℚ}
    (hp : 0 ≤ p) (hpq : p ≤ q) (hq : q ≤ 1) :
    quantileLinear xs p ≤ quantileLinear xs q := by
  simp only [quantileLinear]
  set s := xs.insertionSort (· ≤ ·) with hs_def
  have hsorted : s.Sorted (· ≤ ·) := List.sorted_insertionSort _ xs
  have hlen : s.length = xs.length := List.length_insertionSort _ xs
  have hn : 1 ≤ s.length := by
    rw [hlen]; exact List.length_pos.mpr hne
  set n := s.length with hn_def
  have hN : (0 : ℚ) ≤ (n : ℚ) - 1 := by
    have : (1 : ℚ) ≤ (n : ℚ) := by exact_mod_cast hn
    linarith
  have hp0 : (0 : ℚ) ≤ p * ((n : ℚ) - 1) := mul_nonneg hp hN
  have hq0 : (0 : ℚ) ≤ q * ((n : ℚ) - 1) := mul_nonneg (le_trans hp hpq) hN
  have hpqN : p * ((n : ℚ) - 1) ≤ q * ((n : ℚ) - 1) :=
    mul_le_mul_of_nonneg_right hpq hN
  have hqN : q * ((n : ℚ) - 1) ≤ (n : ℚ) - 1 := mul_le_of_le_one_left hN hq
  have hfp : (0 : ℤ) ≤ ⌊p * ((n : ℚ) - 1)⌋ := Int.floor_nonneg.mpr hp0
  have hfq : (0 : ℤ) ≤ ⌊q * ((n : ℚ) - 1)⌋ := Int.floor_nonneg.mpr hq0
  set ip : ℕ := (⌊p * ((n : ℚ) - 1)⌋).toNat with hip_def
  set iq : ℕ := (⌊q * ((n : ℚ) - 1)⌋).toNat with hiq_def
  have hip_cast : ((ip : ℚ)) = ((⌊p * ((n : ℚ) - 1)⌋ : ℤ) : ℚ) := by
    rw [hip_def]; exact_mod_cast congrArg (fun z : ℤ => (z : ℚ))
      (Int.toNat_of_nonneg hfp)
  have hiq_cast : ((iq : ℚ)) = ((⌊q * ((n : ℚ) - 1)⌋ : ℤ) : ℚ) := by
    rw [hiq_def]; exact_mod_cast congrArg (fun z : ℤ => (z : ℚ))
      (Int.toNat_of_nonneg hfq)
  have hip_le : (ip : ℚ) ≤ p * ((n : ℚ) - 1) := by
    rw [hip_cast]; exact Int.floor_le _
  have hiq_le : (iq : ℚ) ≤ q * ((n : ℚ) - 1) := by
    rw [hiq_cast]; exact Int.floor_le _
  have hip_lt : p * ((n : ℚ) - 1) < (ip : ℚ) + 1 := by
    have h1 := Int.lt_floor_add_one (p * ((n : ℚ) - 1))
    rw [hip_cast]; push_cast at h1; linarith
  have hiq_lt : q * ((n : ℚ) - 1) < (iq : ℚ) + 1 := by
    have h1 := Int.lt_floor_add_one (q * ((n : ℚ) - 1))
    rw [hiq_cast]; push_cast at h1; linarith
  have hipq : ip ≤ iq := by
    rw [hip_def, hiq_def]
    exact Int.toNat_le_toNat (Int.floor_le_floor hpqN)
  have hNfloor : ⌊((n : ℚ) - 1)⌋ = ((n - 1 : ℕ) : ℤ) := by
    have : ((n : ℚ) - 1) = ((n - 1 : ℕ) : ℚ) := by
      have h2 : ((n - 1 : ℕ) : ℚ) = (n : ℚ) - ((1 : ℕ) : ℚ) := Nat.cast_sub hn
      simpa using h2.symm
    rw [this, Int.floor_natCast]
  have hiq_le_n1 : iq ≤ n - 1 := by
    rw [hiq_def]
    have h1 : ⌊q * ((n : ℚ) - 1)⌋ ≤ ((n - 1 : ℕ) : ℤ) := by
      rw [← hNfloor]; exact Int.floor_le_floor hqN
    have := Int.toNat_le_toNat h1
    simpa using this
  have hip_le_n1 : ip ≤ n - 1 := le_trans hipq hiq_le_n1
  have hmin_p_lt : min (ip + 1) (n - 1) < n := by omega
  have hmin_q_lt : min (iq + 1) (n - 1) < n := by omega
  have hiq_lt_n : iq < n := by omega
  have hlo_hi_p : s.getD ip 0 ≤ s.getD (min (ip + 1) (n - 1)) 0 :=
    sorted_getD_mono hsorted (by omega) hmin_p_lt
  have hlo_hi_q : s.getD iq 0 ≤ s.getD (min (iq + 1) (n - 1)) 0 :=
    sorted_getD_mono hsorted (by omega) hmin_q_lt
  rcases eq_or_lt_of_le hipq with heq | hlt
  · rw [← heq]
    have hmul := mul_le_mul_of_nonneg_right
      (show p * ((n : ℚ) - 1) - (ip : ℚ) ≤ q * ((n : ℚ) - 1) - (ip : ℚ) by linarith)
      (show (0 : ℚ) ≤ s.getD (min (ip + 1) (n - 1)) 0 - s.getD ip 0 by linarith)
    linarith
  · have hhi_loq : s.getD (min (ip + 1) (n - 1)) 0 ≤ s.getD iq 0 :=
      sorted_getD_mono hsorted (le_trans (min_le_left _ _) hlt) hiq_lt_n
    have hfp1 : p * ((n : ℚ) - 1) - (ip : ℚ) ≤ 1 := by linarith
    have hfp0 : (0 : ℚ) ≤ p * ((n : ℚ) - 1) - (ip : ℚ) := by linarith
    have hfq0 : (0 : ℚ) ≤ q * ((n : ℚ) - 1) - (iq : ℚ) := by linarith
    nlinarith [mul_nonneg hfq0
        (show (0 : ℚ) ≤ s.getD (min (iq + 1) (n - 1)) 0 - s.getD iq 0 by linarith),
      mul_nonneg (show (0 : ℚ) ≤ 1 - (p * ((n : ℚ) - 1) - (ip : ℚ)) by linarith)
        (show (0 : ℚ) ≤ s.getD (min (ip + 1) (n - 1)) 0 - s.getD ip 0 by linarith)]

lemma quantileCols_length (samples : List (List ℚ)) (p : ℚ) :
    (quantileCols samples p).length = numCols samples := by
  simp [quantileCols]

lemma quantileCols_getD (samples : List (List ℚ)) (p : ℚ) {i : ℕ}
    (hi : i < numCols samples) :
    (quantileCols samples p).getD i 0 = quantileLinear (column samples i) p := by
  rw [List.getD_eq_getElem _ _ (by simpa [quantileCols_length] using hi)]
  simp [quantileCols]

lemma column_ne_nil {samples : List (List ℚ)} (hne : samples ≠ []) (i : ℕ) :
    column samples i ≠ [] := by
  simp [column, hne]

lemma numCols_of_rect {samples : List (List ℚ)} {horizon : ℕ}
    (hne : samples ≠ []) (hrect : ∀ row ∈ samples, row.length = horizon) :
    numCols samples = horizon := by
  cases samples with
  | nil => exact absurd rfl hne
  | cons r rs => exact hrect r (List.mem_cons_self r rs)

/-!  Concrete collaborators used by the witnesses. -/

/-- A loader that always succeeds with handle `0`. -/
def wLoad : String → Except String Pipeline := fun _ => Except.ok 0

/-- A tensor construction that always succeeds. -/
def wTensorize : List ℚ → Except String (List ℚ) := fun l => Except.ok l

/-- A sampler returning a fixed 3 × 2 sample matrix. -/
def wPredict : Pipeline → List ℚ → Int → Except String (List (List ℚ)) :=
  fun _ _ _ => Except.ok [[1, 2], [3, 4], [5, 6]]

/-- The empty initial process state. -/
def wSt0 : CacheState := ⟨[], none, []⟩

/-- The process state after one cold-start load of the base model. -/
def wSt1 : CacheState :=
  ⟨[("amazon/chronos-t5-base", 0)], some "",
    [Ev.setEnv "", Ev.load "amazon/chronos-t5-base"]⟩

/-- Claim C1: for every successful forecast the engine produces from a
batch of sample trajectories, `predictions` is the columnwise 50th
percentile of the batch, `confidence_low` the 10th and `confidence_high`
the 90th (linear-interpolation quantile across the sample axis), and
consequently all three sequences have length exactly `horizon` and
`confidence_low[i] ≤ predictions[i] ≤ confidence_high[i]` for every
`i < horizon`. -/
theorem C1_success_quantile_band
    (load : String → Except String Pipeline)
    (tensorize : List ℚ → Except String (List ℚ))
    (predict : Pipeline → List ℚ → Int → Except String (List (List ℚ)))
    (time_series : List ℚ) (horizon : ℕ) (model_size : String)
    (st st1 : CacheState) (pl : Pipeline) (t : List ℚ)
    (samples : List (List ℚ))
    (hpl : get_chronos_pipeline model_size load st = (Except.ok pl, st1))
    (ht : tensorize time_series = Except.ok t)
    (hs : predict pl t (horizon : Int) = Except.ok samples)
    (hne : samples ≠ [])
    (hrect : ∀ row ∈ samples, row.length = horizon) :
    forecast_chronos load tensorize predict time_series (horizon : Int) model_size st =
      (ForecastResult.success (quantileCols samples (1/2)) (quantileCols samples (1/10))
        (quantileCols samples (9/10)) (horizon : Int)
        ("amazon/chronos-t5-" ++ model_size ++ " (REAL)") 20 true, st1) ∧
    (quantileCols samples (1/2)).length = horizon ∧
    (quantileCols samples (1/10)).length = horizon ∧
    (quantileCols samples (9/10)).length = horizon ∧
    (∀ i < horizon,
      (quantileCols samples (1/10)).getD i 0 ≤ (quantileCols samples (1/2)).getD i 0 ∧
      (quantileCols samples (1/2)).getD i 0 ≤ (quantileCols samples (9/10)).getD i 0) := by
  have hcols := numCols_of_rect hne hrect
  refine ⟨?_, ?_, ?_, ?_, ?_⟩
  · simp [forecast_chronos, hpl, ht, hs]
  · rw [quantileCols_length, hcols]
  · rw [quantileCols_length, hcols]
  · rw [quantileCols_length, hcols]
  · intro i hi
    have hi' : i < numCols samples := by rw [hcols]; exact hi
    rw [quantileCols_getD _ _ hi', quantileCols_getD _ _ hi',
      quantileCols_getD _ _ hi']
    have hcne := column_ne_nil hne i
    exact ⟨quantileLinear_mono hcne (by norm_num) (by norm_num) (by norm_num),
      quantileLinear_mono hcne (by norm_num) (by norm_num) (by norm_num)⟩

/-- Witness for C1 at a concrete 3-sample, horizon-2 run. -/
theorem C1_success_quantile_band_witness :
    forecast_chronos wLoad wTensorize wPredict [1, 2, 3] ((2 : ℕ) : Int) "base" wSt0 =
      (ForecastResult.success (quantileCols [[1, 2], [3, 4], [5, 6]] (1/2))
        (quantileCols [[1, 2], [3, 4], [5, 6]] (1/10))
        (quantileCols [[1, 2], [3, 4], [5, 6]] (9/10)) ((2 : ℕ) : Int)
        ("amazon/chronos-t5-" ++ "base" ++ " (REAL)") 20 true, wSt1) ∧
    (quantileCols [[1, 2], [3, 4], [5, 6]] (1/2)).length = 2 ∧
    (quantileCols [[1, 2], [3, 4], [5, 6]] (1/10)).length = 2 ∧
    (quantileCols [[1, 2], [3, 4], [5, 6]] (9/10)).length = 2 ∧
    (∀ i < 2,
      (quantileCols [[1, 2], [3, 4], [5, 6]] (1/10)).getD i 0 ≤
        (quantileCols [[1, 2], [3, 4], [5, 6]] (1/2)).getD i 0 ∧
      (quantileCols [[1, 2], [3, 4], [5, 6]] (1/2)).getD i 0 ≤
        (quantileCols [[1, 2], [3, 4], [5, 6]] (9/10)).getD i 0) :=
  C1_success_quantile_band wLoad wTensorize wPredict [1, 2, 3] 2 "base" wSt0 wSt1 0
    [1, 2, 3] [[1, 2], [3, 4], [5, 6]] (by rfl) rfl rfl (by simp) (by decide)

/-- Every output of `api_forecast` is one of the four rejection dicts
(each with status `"failed"`) or a dispatch to the engine. -/
lemma api_forecast_cases (p : Payload) :
    api_forecast p = ApiOutcome.reject "time_series must be a list" "failed" ∨
    api_forecast p = ApiOutcome.reject "Need at least 10 historical data points" "failed" ∨
    api_forecast p = ApiOutcome.reject "Horizon must be between 1 and 100" "failed" ∨
    api_forecast p = ApiOutcome.reject "Model must be tiny, small, base, or large" "failed" ∨
    ∃ xs h m, api_forecast p = ApiOutcome.invoke xs h m := by
  rcases p with ⟨ts, hz, mo⟩
  rcases ts with _ | v
  · exact Or.inr (Or.inl rfl)
  · cases v
    case pyList xs =>
      rw [api_forecast]
      by_cases h1 : xs.length < 10
      · simp [h1]
      · by_cases h2 : (hz.getD 24 < 1 ∨ hz.getD 24 > 100)
        · simp [h1, h2]
        · by_cases h3 : (mo.getD "base" ∈ (["tiny", "small", "base", "large"] : List String))
          · refine Or.inr (Or.inr (Or.inr (Or.inr ⟨xs, hz.getD 24, mo.getD "base", ?_⟩)))
            simp [h1, h2, h3]
          · simp [h1, h2, h3]
    all_goals exact Or.inl rfl

/-- Counterexample to claim C2: in the payload `{}` the `time_series` key
is absent, yet validation rejects with the insufficient-history message,
not the `InvalidShape` (`"time_series must be a list"`) message — because
`data.get("time_series", [])` substitutes an empty list which passes the
`isinstance(..., list)` check. -/
theorem C2_counterexample :
    api_forecast ⟨none, none, none⟩ =
      ApiOutcome.reject "Need at least 10 historical data points" "failed" ∧
    api_forecast ⟨none, none, none⟩ ≠
      ApiOutcome.reject "time_series must be a list" "failed" := by
  constructor
  · rfl
  · intro h
    have h0 : api_forecast ⟨none, none, none⟩ =
        ApiOutcome.reject "Need at least 10 historical data points" "failed" := rfl
    rw [h0] at h
    injection h with h1 h2
    exact absurd h1 (by decide)

/-- Claim C2 as amended: the validator applies its rules in source order
with the first failure winning; a `time_series` that is present but not a
list is rejected with the shape reason before any other rule, while an
absent `time_series` key defaults to the empty list, passes the shape
check, and is rejected by the length rule instead. -/
theorem C2_shape_rule_first (p : Payload) :
    (∀ v, p.time_series = some v → v.isPyList = false →
      api_forecast p = ApiOutcome.reject "time_series must be a list" "failed") ∧
    (p.time_series = none →
      api_forecast p =
        ApiOutcome.reject "Need at least 10 historical data points" "failed") := by
  rcases p with ⟨ts, hz, mo⟩
  constructor
  · intro v hv hnl
    cases hv
    cases v <;> simp [PyVal.isPyList] at hnl <;> rfl
  · intro hv
    cases hv
    rfl

/-- Witness for the amended C2 at two concrete payloads: a scalar
`time_series` (shape reason first, even with an invalid horizon), and an
absent `time_series` (length reason). -/
theorem C2_shape_rule_first_witness :
    api_forecast ⟨some (PyVal.pyInt 5), some 0, none⟩ =
      ApiOutcome.reject "time_series must be a list" "failed" ∧
    api_forecast ⟨none, some 24, some "base"⟩ =
      ApiOutcome.reject "Need at least 10 historical data points" "failed" :=
  ⟨(C2_shape_rule_first ⟨some (PyVal.pyInt 5), some 0, none⟩).1
      (PyVal.pyInt 5) rfl rfl,
    (C2_shape_rule_first ⟨none, some 24, some "base"⟩).2 rfl⟩

/-- Claim C3: a validation rejection returns the error dict with status
`"failed"` and the rule-specific message, and never dispatches to the
engine (hence neither the model cache nor the forecasting engine is
invoked); in particular a 9-point `time_series` yields the
insufficient-history message and `horizon = 0` (with adequate history)
yields the horizon-range message. -/
theorem C3_rejection_no_dispatch (p : Payload) :
    (∀ xs, p.time_series = some (PyVal.pyList xs) → xs.length = 9 →
      api_forecast p =
        ApiOutcome.reject "Need at least 10 historical data points" "failed") ∧
    (∀ xs, p.time_series = some (PyVal.pyList xs) → 10 ≤ xs.length →
      p.horizon = some 0 →
      api_forecast p =
        ApiOutcome.reject "Horizon must be between 1 and 100" "failed") ∧
    (∀ e s, api_forecast p = ApiOutcome.reject e s →
      s = "failed" ∧ ∀ xs h m, api_forecast p ≠ ApiOutcome.invoke xs h m) := by
  rcases p with ⟨ts, hz, mo⟩
  refine ⟨?_, ?_, ?_⟩
  · intro xs hts hlen
    cases hts
    rw [api_forecast]
    simp [hlen]
  · intro xs hts hlen hhz
    cases hts
    cases hhz
    rw [api_forecast]
    simp [show ¬ xs.length < 10 by omega]
  · intro e s hrej
    have hnotinv : ∀ xs h m,
        api_forecast ⟨ts, hz, mo⟩ ≠ ApiOutcome.invoke xs h m := by
      intro xs h m hinv
      rw [hrej] at hinv
      exact ApiOutcome.noConfusion hinv
    refine ⟨?_, hnotinv⟩
    rcases api_forecast_cases ⟨ts, hz, mo⟩ with h | h | h | h | ⟨xs0, h0, m0, hinv⟩
    · rw [h] at hrej; injection hrej with h1 h2; exact h2.symm
    · rw [h] at hrej; injection hrej with h1 h2; exact h2.symm
    · rw [h] at hrej; injection hrej with h1 h2; exact h2.symm
    · rw [h] at hrej; injection hrej with h1 h2; exact h2.symm
    · rw [hinv] at hrej; exact ApiOutcome.noConfusion hrej

/-- Witness for C3: the two concrete scenarios from the spec (length-9
series; `horizon = 0` with a 10-point series), plus the no-dispatch fact
for the first. -/
theorem C3_rejection_no_dispatch_witness :
    api_forecast ⟨some (PyVal.pyList (List.replicate 9 (PyVal.pyInt 1))), none, none⟩ =
      ApiOutcome.reject "Need at least 10 historical data points" "failed" ∧
    api_forecast ⟨some (PyVal.pyList (List.replicate 10 (PyVal.pyInt 1))), some 0, none⟩ =
      ApiOutcome.reject "Horizon must be between 1 and 100" "failed" :=
  ⟨(C3_rejection_no_dispatch _).1 (List.replicate 9 (PyVal.pyInt 1)) rfl (by decide),
    (C3_rejection_no_dispatch _).2.1 (List.replicate 10 (PyVal.pyInt 1)) rfl
      (by decide) rfl⟩

/-- Case characterization of `get_chronos_pipeline` with the trace appends
flattened. -/
lemma get_chronos_pipeline_eq (model_size : String)
    (load : String → Except String Pipeline) (st : CacheState) :
    get_chronos_pipeline model_size load st =
      match st.cache.lookup (chronosName model_size) with
      | some p =>
        (Except.ok p,
          { st with
              cudaVisibleDevices := some ""
              trace := st.trace ++ [Ev.setEnv ""] })
      | none =>
        match load (chronosName model_size) with
        | Except.error e =>
          (Except.error e,
            { st with
                cudaVisibleDevices := some ""
                trace := st.trace ++ [Ev.setEnv "", Ev.load (chronosName model_size)] })
        | Except.ok p =>
          (Except.ok p,
            { st with
                cudaVisibleDevices := some ""
                cache := dictInsert (chronosName model_size) p st.cache
                trace := st.trace ++
                  [Ev.setEnv "", Ev.load (chronosName model_size)] }) := by
  rcases st with ⟨c, envv, tr⟩
  rw [get_chronos_pipeline]
  dsimp only
  cases List.lookup (chronosName model_size) c with
  | some p => rfl
  | none =>
    cases load (chronosName model_size) with
    | error e => simp
    | ok p => simp

/-- Looking up the key just inserted by `dictInsert` returns the inserted
pipeline. -/
lemma lookup_dictInsert_self (k : String) (v : Pipeline)
    (d : List (String × Pipeline)) :
    List.lookup k (dictInsert k v d) = some v := by
  simp [dictInsert, List.lookup]

/-- After a successful `get_chronos_pipeline`, the cache holds the
returned handle under the model key. -/
lemma get_chronos_pipeline_ok_lookup {model_size : String}
    {load : String → Except String Pipeline} {st st1 : CacheState} {p : Pipeline}
    (h : get_chronos_pipeline model_size load st = (Except.ok p, st1)) :
    st1.cache.lookup (chronosName model_size) = some p := by
  rw [get_chronos_pipeline_eq] at h
  cases hl : List.lookup (chronosName model_size) st.cache with
  | some q =>
    rw [hl] at h
    injection h with h1 h2
    injection h1 with h1
    subst h1
    subst h2
    exact hl
  | none =>
    rw [hl] at h
    cases hload : load (chronosName model_size) with
    | error e =>
      rw [hload] at h
      injection h with h1 h2
      exact Except.noConfusion h1
    | ok q =>
      rw [hload] at h
      injection h with h1 h2
      injection h1 with h1
      subst h1
      subst h2
      exact lookup_dictInsert_self _ _ _

/-- Claim C4: an exception during tensor construction or during inference
is caught and converted into a `status: failed` result carrying the
original error text, and the engine always hands its caller a well-formed
result (status `"failed"` or `"success"`) — no exception escapes the
`try` block. -/
theorem C4_engine_catches_exceptions
    (load : String → Except String Pipeline)
    (tensorize : List ℚ → Except String (List ℚ))
    (predict : Pipeline → List ℚ → Int → Except String (List (List ℚ)))
    (time_series : List ℚ) (horizon : Int) (model_size : String)
    (st : CacheState) :
    (∀ pl st1 e, get_chronos_pipeline model_size load st = (Except.ok pl, st1) →
      tensorize time_series = Except.error e →
      forecast_chronos load tensorize predict time_series horizon model_size st =
        (ForecastResult.failed e, st1)) ∧
    (∀ pl st1 t e, get_chronos_pipeline model_size load st = (Except.ok pl, st1) →
      tensorize time_series = Except.ok t →
      predict pl t horizon = Except.error e →
      forecast_chronos load tensorize predict time_series horizon model_size st =
        (ForecastResult.failed e, st1)) ∧
    ((forecast_chronos load tensorize predict time_series horizon
        model_size st).1.status = "failed" ∨
      (forecast_chronos load tensorize predict time_series horizon
        model_size st).1.status = "success") := by
  refine ⟨?_, ?_, ?_⟩
  · intro pl st1 e hpl hterr
    simp [forecast_chronos, hpl, hterr]
  · intro pl st1 t e hpl ht hperr
    simp [forecast_chronos, hpl, ht, hperr]
  · cases hfc : (forecast_chronos load tensorize predict time_series horizon
      model_size st).1
    · exact Or.inr rfl
    · exact Or.inl rfl

/-- Witness for C4: a concrete failing tensor construction is surfaced as
a `failed` result with the same message. -/
theorem C4_engine_catches_exceptions_witness :
    forecast_chronos wLoad (fun _ => Except.error "boom") wPredict [1] 2 "base" wSt0 =
      (ForecastResult.failed "boom", wSt1) :=
  (C4_engine_catches_exceptions wLoad (fun _ => Except.error "boom") wPredict
      [1] 2 "base" wSt0).1 0 wSt1 "boom" (by rfl) rfl

/-- Claim C5: after a successful call for a model key, a second sequential
call for the same key is a cache hit — it returns the very same handle,
performs no further load, and leaves the cache contents unchanged. -/
theorem C5_second_call_cache_hit (model_size : String)
    (load : String → Except String Pipeline) (st st1 : CacheState) (p1 : Pipeline)
    (h1 : get_chronos_pipeline model_size load st = (Except.ok p1, st1)) :
    (get_chronos_pipeline model_size load st1).1 = Except.ok p1 ∧
    (get_chronos_pipeline model_size load st1).2.cache = st1.cache ∧
    countLoads (get_chronos_pipeline model_size load st1).2.trace =
      countLoads st1.trace := by
  have hlook := get_chronos_pipeline_ok_lookup h1
  rw [get_chronos_pipeline_eq, hlook]
  refine ⟨rfl, rfl, ?_⟩
  simp [countLoads, List.filter_append]

/-- Witness for C5: concrete cold start followed by a warm call. -/
theorem C5_second_call_cache_hit_witness :
    (get_chronos_pipeline "base" wLoad wSt1).1 = Except.ok 0 ∧
    (get_chronos_pipeline "base" wLoad wSt1).2.cache = wSt1.cache ∧
    countLoads (get_chronos_pipeline "base" wLoad wSt1).2.trace =
      countLoads wSt1.trace :=
  C5_second_call_cache_hit "base" wLoad wSt0 wSt1 0 (by rfl)

/-- Claim C6: when the load for an uncached key throws, the failure
propagates out of the loader and is surfaced by the engine as a `failed`
result with the original message; the cache retains no entry under the
key, and a subsequent call with a working loader retries the load (one
more load event) and succeeds. -/
theorem C6_failed_load_retries (model_size e : String)
    (load load2 : String → Except String Pipeline) (p : Pipeline)
    (tensorize : List ℚ → Except String (List ℚ))
    (predict : Pipeline → List ℚ → Int → Except String (List (List ℚ)))
    (time_series : List ℚ) (horizon : Int) (st : CacheState)
    (hmiss : st.cache.lookup (chronosName model_size) = none)
    (hload : load (chronosName model_size) = Except.error e)
    (hload2 : load2 (chronosName model_size) = Except.ok p) :
    (get_chronos_pipeline model_size load st).1 = Except.error e ∧
    (get_chronos_pipeline model_size load st).2.cache = st.cache ∧
    (get_chronos_pipeline model_size load st).2.cache.lookup
      (chronosName model_size) = none ∧
    (forecast_chronos load tensorize predict time_series horizon
      model_size st).1 = ForecastResult.failed e ∧
    (get_chronos_pipeline model_size load2
      (get_chronos_pipeline model_size load st).2).1 = Except.ok p ∧
    countLoads (get_chronos_pipeline model_size load2
        (get_chronos_pipeline model_size load st).2).2.trace =
      countLoads (get_chronos_pipeline model_size load st).2.trace + 1 := by
  have hfst : get_chronos_pipeline model_size load st =
      (Except.error e,
        { st with
            cudaVisibleDevices := some ""
            trace := st.trace ++
              [Ev.setEnv "", Ev.load (chronosName model_size)] }) := by
    rw [get_chronos_pipeline_eq, hmiss, hload]
  have hlook2 : List.lookup (chronosName model_size)
      ({ st with
          cudaVisibleDevices := some ""
          trace := st.trace ++
            [Ev.setEnv "", Ev.load (chronosName model_size)] } : CacheState).cache =
      none := hmiss
  refine ⟨?_, ?_, ?_, ?_, ?_, ?_⟩
  · rw [hfst]
  · rw [hfst]
  · rw [hfst]
    exact hmiss
  · simp [forecast_chronos, hfst]
  · rw [hfst, get_chronos_pipeline_eq, hlook2, hload2]
  · rw [hfst, get_chronos_pipeline_eq, hlook2, hload2]
    simp [countLoads, List.filter_append]

/-- Witness for C6: a concrete failing loader on an empty cache, followed
by a concrete succeeding retry. -/
theorem C6_failed_load_retries_witness :
    (get_chronos_pipeline "base" (fun _ => Except.error "no network") wSt0).1 =
      Except.error "no network" ∧
    (get_chronos_pipeline "base" (fun _ => Except.error "no network") wSt0).2.cache =
      wSt0.cache ∧
    (get_chronos_pipeline "base"
      (fun _ => Except.error "no network") wSt0).2.cache.lookup
        (chronosName "base") = none ∧
    (forecast_chronos (fun _ => Except.error "no network") wTensorize wPredict
      [1] 2 "base" wSt0).1 = ForecastResult.failed "no network" ∧
    (get_chronos_pipeline "base" wLoad
      (get_chronos_pipeline "base" (fun _ => Except.error "no network") wSt0).2).1 =
      Except.ok 0 ∧
    countLoads (get_chronos_pipeline "base" wLoad
        (get_chronos_pipeline "base"
          (fun _ => Except.error "no network") wSt0).2).2.trace =
      countLoads (get_chronos_pipeline "base"
        (fun _ => Except.error "no network") wSt0).2.trace + 1 :=
  C6_failed_load_retries "base" "no network" (fun _ => Except.error "no network")
    wLoad 0 wTensorize wPredict [1] 2 wSt0 rfl rfl rfl

/-- Claim C7: the substitution path. `api_timesfm` accepts the same body
shape while ignoring any `model` field and bounding the horizon by 128
instead of 100; `forecast_timesfm` executes the engine on the designated
stand-in (`"base"`), on success overwrites the model label with
`"TimesFM (via Chronos proxy)"` so the substitution is visible to callers,
and passes engine failures through unmodified. -/
theorem C7_substitution_path
    (load : String → Except String Pipeline)
    (tensorize : List ℚ → Except String (List ℚ))
    (predict : Pipeline → List ℚ → Int → Except String (List (List ℚ))) :
    (∀ ts h st p cl ch hz m n c st1,
      forecast_chronos load tensorize predict ts h "base" st =
        (ForecastResult.success p cl ch hz m n c, st1) →
      forecast_timesfm load tensorize predict ts h st =
        (ForecastResult.success p cl ch hz "TimesFM (via Chronos proxy)" n c, st1)) ∧
    (∀ ts h st e st1,
      forecast_chronos load tensorize predict ts h "base" st =
        (ForecastResult.failed e, st1) →
      forecast_timesfm load tensorize predict ts h st =
        (ForecastResult.failed e, st1)) ∧
    (∀ p m2, api_timesfm { p with model := m2 } = api_timesfm p) ∧
    (∀ p xs h, p.time_series = some (PyVal.pyList xs) → 10 ≤ xs.length →
      p.horizon = some h → 1 ≤ h → h ≤ 128 →
      api_timesfm p = TimesfmOutcome.invoke xs h) := by
  refine ⟨?_, ?_, ?_, ?_⟩
  · intro ts h st p cl ch hz m n c st1 hfc
    simp [forecast_timesfm, hfc]
  · intro ts h st e st1 hfc
    simp [forecast_timesfm, hfc]
  · intro p m2
    rfl
  · intro p xs h hts hlen hh h1 h128
    rcases p with ⟨ts, hz, mo⟩
    cases hts
    cases hh
    rw [api_timesfm]
    simp [show ¬ xs.length < 10 by omega, show ¬ (h < 1 ∨ h > 128) by omega]

/-- Witness for C7: a concrete successful substitution run (the label is
overwritten) and a concrete `api_timesfm` payload with `horizon = 128`
and a `model` field, which is ignored. -/
theorem C7_substitution_path_witness :
    forecast_timesfm wLoad wTensorize wPredict [1, 2, 3] 2 wSt0 =
      (ForecastResult.success (quantileCols [[1, 2], [3, 4], [5, 6]] (1/2))
        (quantileCols [[1, 2], [3, 4], [5, 6]] (1/10))
        (quantileCols [[1, 2], [3, 4], [5, 6]] (9/10)) 2
        "TimesFM (via Chronos proxy)" 20 true, wSt1) ∧
    api_timesfm ⟨some (PyVal.pyList (List.replicate 10 (PyVal.pyInt 1))),
        some 128, some "large"⟩ =
      TimesfmOutcome.invoke (List.replicate 10 (PyVal.pyInt 1)) 128 ∧
    api_timesfm ⟨some (PyVal.pyList (List.replicate 10 (PyVal.pyInt 1))),
        some 128, some "large"⟩ =
      api_timesfm ⟨some (PyVal.pyList (List.replicate 10 (PyVal.pyInt 1))),
        some 128, none⟩ :=
  ⟨(C7_substitution_path wLoad wTensorize wPredict).1 [1, 2, 3] 2 wSt0
      (quantileCols [[1, 2], [3, 4], [5, 6]] (1/2))
      (quantileCols [[1, 2], [3, 4], [5, 6]] (1/10))
      (quantileCols [[1, 2], [3, 4], [5, 6]] (9/10)) 2
      ("amazon/chronos-t5-" ++ "base" ++ " (REAL)") 20 true wSt1 (by rfl),
    (C7_substitution_path wLoad wTensorize wPredict).2.2.2
      ⟨some (PyVal.pyList (List.replicate 10 (PyVal.pyInt 1))), some 128, some "large"⟩
      (List.replicate 10 (PyVal.pyInt 1)) 128 rfl (by decide) rfl
      (by decide) (by decide),
    (C7_substitution_path wLoad wTensorize wPredict).2.2.1
      ⟨some (PyVal.pyList (List.replicate 10 (PyVal.pyInt 1))), some 128, none⟩
      (some "large")⟩

/-- The initial two-thread race state: empty cache, both threads about to
run `get_chronos_pipeline` for the same key. -/
def raceInit : Conc2 :=
  ⟨⟨[], none, []⟩, ⟨0, none⟩, ⟨0, none⟩⟩

/-- Claim C8 evaluated on the code: under the racy interleaving
(check₀, check₁, load₀, load₁) both threads miss the empty cache and both
perform the load — two load events for one key, refuting the
at-most-one-in-flight-load guarantee the claim states; under the
sequential interleaving (thread 0 runs to completion first) only one load
happens, confirming the duplicate is caused by the unsynchronized
check-then-populate sequence. -/
theorem C8_duplicate_concurrent_load :
    countLoads (runSched "amazon/chronos-t5-base" (fun _ => 7)
      [false, true, false, true] raceInit).st.trace = 2 ∧
    (runSched "amazon/chronos-t5-base" (fun _ => 7)
      [false, true, false, true] raceInit).t0.pc = 2 ∧
    (runSched "amazon/chronos-t5-base" (fun _ => 7)
      [false, true, false, true] raceInit).t1.pc = 2 ∧
    (runSched "amazon/chronos-t5-base" (fun _ => 7)
      [false, true, false, true] raceInit).t0.result = some 7 ∧
    (runSched "amazon/chronos-t5-base" (fun _ => 7)
      [false, true, false, true] raceInit).t1.result = some 7 ∧
    countLoads (runSched "amazon/chronos-t5-base" (fun _ => 7)
      [false, false, true] raceInit).st.trace = 1 := by
  decide

/-- Counterexample to claim C9: `CUDA_VISIBLE_DEVICES` is (re)assigned at
the start of every call, including cache hits — after a cold-start load,
a second (hit) call writes the toggle again, so the toggle is written
after the load step and a cache hit does touch the device
configuration. -/
theorem C9_counterexample :
    (get_chronos_pipeline "base" wLoad
      (get_chronos_pipeline "base" wLoad wSt0).2).2.trace =
      [Ev.setEnv "", Ev.load "amazon/chronos-t5-base", Ev.setEnv ""] ∧
    ((get_chronos_pipeline "base" wLoad wSt0).2.cache.lookup
      (chronosName "base")).isSome = true ∧
    countSetEnv (get_chronos_pipeline "base" wLoad
        (get_chronos_pipeline "base" wLoad wSt0).2).2.trace =
      countSetEnv (get_chronos_pipeline "base" wLoad wSt0).2.trace + 1 :=
  ⟨rfl, rfl, rfl⟩

/-- Claim C9 as amended: the device toggle is assigned at the start of
every call — before the cache lookup and hence before any load performed
by that call — so every load runs with the toggle already set; a cache
hit performs no load and leaves the cache and the cached handle
unchanged (it merely re-writes the identical toggle value). -/
theorem C9_toggle_before_load (model_size : String)
    (load : String → Except String Pipeline) (st : CacheState) :
    (get_chronos_pipeline model_size load st).2.cudaVisibleDevices = some "" ∧
    (∀ p, st.cache.lookup (chronosName model_size) = some p →
      (get_chronos_pipeline model_size load st).1 = Except.ok p ∧
      (get_chronos_pipeline model_size load st).2.cache = st.cache ∧
      (get_chronos_pipeline model_size load st).2.trace =
        st.trace ++ [Ev.setEnv ""]) ∧
    (st.cache.lookup (chronosName model_size) = none →
      (get_chronos_pipeline model_size load st).2.trace =
        st.trace ++ [Ev.setEnv "", Ev.load (chronosName model_size)]) := by
  refine ⟨?_, ?_, ?_⟩
  · rw [get_chronos_pipeline_eq]
    cases hl : List.lookup (chronosName model_size) st.cache
    · cases hld : load (chronosName model_size) <;> rfl
    · rfl
  · intro p hl
    rw [get_chronos_pipeline_eq, hl]
    exact ⟨rfl, rfl, rfl⟩
  · intro hl
    rw [get_chronos_pipeline_eq, hl]
    cases hld : load (chronosName model_size) <;> rfl

/-- Witness for the amended C9: concrete cold call (toggle precedes the
load event) and concrete hit call (no load event, cache unchanged). -/
theorem C9_toggle_before_load_witness :
    (get_chronos_pipeline "base" wLoad wSt0).2.trace =
      wSt0.trace ++ [Ev.setEnv "", Ev.load (chronosName "base")] ∧
    ((get_chronos_pipeline "base" wLoad wSt1).1 = Except.ok 0 ∧
      (get_chronos_pipeline "base" wLoad wSt1).2.cache = wSt1.cache ∧
      (get_chronos_pipeline "base" wLoad wSt1).2.trace =
        wSt1.trace ++ [Ev.setEnv ""]) :=
  ⟨(C9_toggle_before_load "base" wLoad wSt0).2.2 rfl,
    (C9_toggle_before_load "base" wLoad wSt1).2.1 0 rfl⟩

/-- Claim C10: every successful `forecast_chronos` result carries the
extra fields `num_samples = 20` and `cached = true`, and a model label of
the exact form `"amazon/chronos-t5-<size> (REAL)"`. -/
theorem C10_success_extra_fields
    (load : String → Except String Pipeline)
    (tensorize : List ℚ → Except String (List ℚ))
    (predict : Pipeline → List ℚ → Int → Except String (List (List ℚ)))
    (time_series : List ℚ) (horizon : Int) (model_size : String)
    (st st1 : CacheState) (preds cl ch : List ℚ) (hz : Int) (m : String)
    (ns : Int) (c : Bool)
    (h : forecast_chronos load tensorize predict time_series horizon model_size st =
      (ForecastResult.success preds cl ch hz m ns c, st1)) :
    ns = 20 ∧ c = true ∧ m = "amazon/chronos-t5-" ++ model_size ++ " (REAL)" := by
  rcases hg : get_chronos_pipeline model_size load st with ⟨r, stA⟩
  cases r with
  | error e =>
    simp [forecast_chronos, hg] at h
  | ok pl =>
    cases ht : tensorize time_series with
    | error e =>
      simp [forecast_chronos, hg, ht] at h
    | ok t =>
      cases hp : predict pl t horizon with
      | error e =>
        simp [forecast_chronos, hg, ht, hp] at h
      | ok samples =>
        simp only [forecast_chronos, hg, ht, hp, Prod.mk.injEq,
          ForecastResult.success.injEq] at h
        obtain ⟨⟨h1, h2, h3, h4, h5, h6, h7⟩, h8⟩ := h
        exact ⟨h6.symm, h7.symm, h5.symm⟩

/-- Witness for C10 at a concrete successful run. -/
theorem C10_success_extra_fields_witness :
    (20 : Int) = 20 ∧ (true : Bool) = true ∧
      ("amazon/chronos-t5-base (REAL)" : String) =
        "amazon/chronos-t5-" ++ "base" ++ " (REAL)" :=
  C10_success_extra_fields wLoad wTensorize wPredict [1, 2, 3] 2 "base" wSt0 wSt1
    (quantileCols [[1, 2], [3, 4], [5, 6]] (1/2))
    (quantileCols [[1, 2], [3, 4], [5, 6]] (1/10))
    (quantileCols [[1, 2], [3, 4], [5, 6]] (9/10)) 2
    "amazon/chronos-t5-base (REAL)" 20 true (by rfl)

end IavaChronos
